import Mathlib

/-!
Formal model of the Casper caching proxy: request classification, cache-key
derivation, bulk decomposition and recomposition, fetch/store orchestration,
time-to-live expiry, and invalidation.  The proxy implementation itself is not
part of this source snapshot (only its integration test-suite is), so every
operational definition below is modelled from the behavioural specification
(spec.md); each doc comment says which part of the contract it renders.
-/

/-- Modelled from the spec: code-point encoding of a string, used to order
query-parameter names lexicographically (the proxy code that serializes keys
"in lexicographic order" is not in this snapshot). -/
def keyEncode (s : String) : List Nat := s.data.map Char.toNat

/-- Modelled from the spec: lexicographic order on query-parameter names. -/
abbrev keyLe (a b : String) : Prop := keyEncode a ≤ keyEncode b

instance : IsTrans String keyLe :=
  ⟨fun _ _ _ h1 h2 => le_trans h1 h2⟩

instance : IsTotal String keyLe :=
  ⟨fun a b => le_total (keyEncode a) (keyEncode b)⟩

instance : IsAntisymm String keyLe :=
  ⟨fun a b h1 h2 => by
    have h : keyEncode a = keyEncode b := le_antisymm h1 h2
    have hinj : Function.Injective Char.toNat := fun c d hc => by
      have h2 := congrArg Char.ofNat hc
      rwa [Char.ofNat_toNat, Char.ofNat_toNat] at h2
    have hdata : a.data = b.data := List.map_injective_iff.mpr hinj h
    cases a
    cases b
    exact congrArg String.mk hdata⟩

/-- Modelled from the spec (§3, §4.2): per-endpoint cache configuration.
Path patterns, delimiters and namespace resolution are out of scope of the
claims and are not carried here. -/
structure CacheEndpointConfig where
  ttl : Nat
  varyHeaders : List String
  bulkSupport : Bool
  cacheMissingIds : Bool
  validRange : Option (Int × Int)
  postIdField : Option String
  ignoredBodyFields : List String
deriving DecidableEq

/-- Modelled from the spec: an HTTP request as the cache engine sees it.  The
query string is already parsed into ordered key/value pairs and a POST JSON
body into a shallow field/value object (ignored-field removal is by field
name, shallow, per §4.2). -/
structure Request where
  method : String
  path : String
  query : List (String × String)
  headers : List (String × String)
  body : Option (List (String × String))
deriving DecidableEq

/-- Modelled from the spec (§4.2): the ordered sequence of values of one
query-parameter key, as they appear in the request. -/
def valuesFor (q : List (String × String)) (k : String) : List String :=
  (q.filter (fun p => p.1 == k)).map Prod.snd

/-- Modelled from the spec (§4.2): the distinct query-parameter keys in
lexicographic order. -/
def queryKeys (q : List (String × String)) : List String :=
  List.insertionSort keyLe ((q.map Prod.fst).dedup)

/-- Modelled from the spec (§4.2): canonical query serialization - keys in
lexicographic order, each key's values kept in original order. -/
def canonQuery (q : List (String × String)) : List (String × List String) :=
  (queryKeys q).map (fun k => (k, valuesFor q k))

/-- Modelled from the spec: ASCII lower-casing, for case-insensitive header
name comparison. -/
def lowerStr (s : String) : String := ⟨s.data.map Char.toLower⟩

/-- Modelled from the spec: the first value of a header, name compared
case-insensitively. -/
def headerValue (hs : List (String × String)) (name : String) : Option String :=
  (hs.find? (fun p => lowerStr p.1 == lowerStr name)).map Prod.snd

/-- Modelled from the spec (§4.2): truthy values of the consistency-override
headers (`1` or `True`). -/
def isTruthy (v : String) : Bool := v == "1" || v == "True"

/-- Modelled from the spec (§4.2, §6): the no-cache directives that force a
direct (uncached-read) fetch. -/
def hasNoCacheDirective (hs : List (String × String)) : Bool :=
  headerValue hs "pragma" == some "no-cache" ||
  headerValue hs "pragma" == some "spectre-no-cache" ||
  headerValue hs "cache-control" == some "no-cache" ||
  (headerValue hs "x-strongly-consistent-read").any isTruthy ||
  (headerValue hs "x-force-master-read").any isTruthy

/-- Modelled from the spec: first value of a JSON body field, by name. -/
def lookupField (b : List (String × String)) (f : String) : Option String :=
  (b.find? (fun p => p.1 == f)).map Prod.snd

/-- Modelled from the spec (§4.2): the POST body with the configured ignored
fields removed (shallow, by field name), as used for the key fingerprint. -/
def stripIgnored (cfg : CacheEndpointConfig) (b : List (String × String)) :
    List (String × String) :=
  b.filter (fun p => !(cfg.ignoredBodyFields.contains p.1))

/-- Modelled from the spec (§3): the stable, order-independent vary signature
of a request: canonical query, configured vary-header values, and for POST
requests the body with ignored fields stripped. -/
structure VarySig where
  queryFingerprint : List (String × List String)
  varyValues : List (Option String)
  bodyFingerprint : Option (List (String × String))
deriving DecidableEq

/-- Modelled from the spec (§3, §4.2): vary-signature derivation. -/
def varySig (cfg : CacheEndpointConfig) (r : Request) : VarySig :=
  { queryFingerprint := canonQuery r.query
  , varyValues := cfg.varyHeaders.map (fun h => headerValue r.headers h)
  , bodyFingerprint := if r.method == "POST" then r.body.map (stripIgnored cfg) else none }

/-- Modelled from the spec (§4.2): entity-id extraction for POST-with-id
caching, via the configured JSON field path, applied to the full body
(before ignored-field removal). -/
def extractEntityId (cfg : CacheEndpointConfig) (r : Request) : Option String :=
  match cfg.postIdField with
  | some f => r.body.bind (fun b => lookupField b f)
  | none => none

/-- Modelled from the spec (§3): a CacheKey
`(namespace, cache_name, entity_id | null, vary_signature)`. -/
structure StoreKey where
  ns : String
  cacheName : String
  entityId : Option String
  sig : VarySig
deriving DecidableEq

/-- Modelled from the spec (§4.2): the CacheKey a request derives to, before
the no-cache rejection check. -/
def deriveKey (cfg : CacheEndpointConfig) (ns cacheName : String) (r : Request) : StoreKey :=
  ⟨ns, cacheName, extractEntityId cfg r, varySig cfg r⟩

/-- Modelled from the spec (§4.2): result of `derive`. -/
inductive DeriveResult where
  | key (k : StoreKey)
  | rejected (reason : String)
deriving DecidableEq

/-- Modelled from the spec (§4.2): `derive(request, config)` - an explicit
no-cache directive rejects with reason `no-cache-header`, otherwise the
canonical CacheKey is produced. -/
def derive (cfg : CacheEndpointConfig) (ns cacheName : String) (r : Request) : DeriveResult :=
  if hasNoCacheDirective r.headers then .rejected "no-cache-header"
  else .key (deriveKey cfg ns cacheName r)

/-- Modelled from the spec (§3): a stored cache entry.  `body = none` is the
empty-result placeholder stored for a fetched bulk id with no upstream result
(cacheable response headers are not carried; no claim touches them). -/
structure CacheEntry where
  statusCode : Nat
  body : Option String
  storedAt : Nat
  ttl : Nat
deriving DecidableEq

/-- The external key-value store, as an association list (newest first). -/
abbrev Store := List (StoreKey × CacheEntry)

/-- Modelled from the spec (§3): storing overwrites the prior entry for the
same key. -/
def storePut (store : Store) (k : StoreKey) (e : CacheEntry) : Store :=
  (k, e) :: store.filter (fun p => !(p.1 == k))

/-- Raw presence of an entry in the store, ignoring expiry. -/
def storeFind (store : Store) (k : StoreKey) : Option CacheEntry :=
  (store.find? (fun p => p.1 == k)).map Prod.snd

/-- Modelled from the spec (§3): a read of the store; expiry is enforced
lazily here - an entry `ttl` seconds or more after `stored_at` reads as a
miss, nothing is evicted by the read. -/
def storeLookup (store : Store) (k : StoreKey) (now : Nat) : Option CacheEntry :=
  match storeFind store k with
  | some e => if now < e.storedAt + e.ttl then some e else none
  | none => none

/-- Modelled from the spec (§4.5): purge deletes all entries under
`(namespace, cache_name, *)`, or with an id only `(namespace, cache_name,
id, *)` across all vary signatures. -/
def purgeStore (store : Store) (ns cacheName : String) (id : Option String) : Store :=
  match id with
  | some x =>
    store.filter (fun p =>
      !(p.1.ns == ns && p.1.cacheName == cacheName && p.1.entityId == some x))
  | none =>
    store.filter (fun p => !(p.1.ns == ns && p.1.cacheName == cacheName))

/-- Modelled from the spec (§4.5): purge validation - unknown namespace or
cache name is rejected with a 400 reason string. -/
def purge (cfgNamespaces : List (String × List String)) (store : Store)
    (ns cacheName : String) (id : Option String) : Except String Store :=
  match cfgNamespaces.find? (fun p => p.1 == ns) with
  | none => .error ("Unknown namespace " ++ ns)
  | some (_, names) =>
    if names.contains cacheName then .ok (purgeStore store ns cacheName id)
    else .error ("Unknown cache_name " ++ cacheName ++ " for namespace " ++ ns)

/-- Modelled from the spec (§4.3): parse a non-empty all-digit character list
as a natural number. -/
def parseDigits (cs : List Char) : Option Nat :=
  if cs.isEmpty then none
  else
    cs.foldl (fun acc c =>
      match acc with
      | none => none
      | some n => if c.isDigit then some (n * 10 + (c.toNat - 48)) else none) (some 0)

/-- Modelled from the spec (§4.3): integer parsing of an id token. -/
def parseIntToken (s : String) : Option Int :=
  match s.data with
  | '-' :: rest => (parseDigits rest).map (fun n => -(n : Int))
  | cs => (parseDigits cs).map (fun n => (n : Int))

/-- Modelled from the spec (§4.3): classification of a bulk id token. -/
inductive IdClass where
  | validInt (n : Int)
  | validStr (s : String)
  | invalid
deriving DecidableEq

/-- Modelled from the spec (§4.3): `validate(token, config)` - tokens
parseable as an integer inside the configured valid range are integer ids,
tokens that fail integer parsing are always valid as opaque string ids, and
out-of-range integers are invalid. -/
def validate (cfg : CacheEndpointConfig) (token : String) : IdClass :=
  match parseIntToken token with
  | some n =>
    match cfg.validRange with
    | some (lo, hi) => if lo ≤ n ∧ n ≤ hi then .validInt n else .invalid
    | none => .validInt n
  | none => .validStr token

/-- The per-entity key text of a validated id (`none` for invalid ids, which
are dropped). -/
def idKeyOf : IdClass → Option String
  | .validInt n => some (toString n)
  | .validStr s => some s
  | .invalid => none

/-- Modelled from the spec (§4.3): the ordered list of valid ids of a bulk
request, duplicates kept, invalid tokens silently dropped. -/
def validIdKeys (cfg : CacheEndpointConfig) (tokens : List String) : List String :=
  tokens.filterMap (fun t => idKeyOf (validate cfg t))

/-- Modelled from the spec (§4.3): splitting the id segment of a bulk request
into tokens by the configured delimiter. -/
def splitIds (s : String) (delim : String) : List String :=
  s.splitOn delim

/-- Fixed per-request context of a bulk decomposition: endpoint config,
resolved namespace and cache name, the request's vary signature, and the
current time. -/
structure BulkCtx where
  cfg : CacheEndpointConfig
  ns : String
  cacheName : String
  sig : VarySig
  now : Nat

/-- Modelled from the spec (§4.3): the per-id CacheKey of a bulk request. -/
def bulkKey (ctx : BulkCtx) (i : String) : StoreKey :=
  ⟨ctx.ns, ctx.cacheName, some i, ctx.sig⟩

/-- Modelled from the spec (§4.3): the independent cache lookup of one valid
bulk id. -/
def bulkLookup (ctx : BulkCtx) (store : Store) (i : String) : Option CacheEntry :=
  storeLookup store (bulkKey ctx i) ctx.now

/-- Modelled from the spec (§4.3): the entry a valid id contributes - the
cached body on a hit (possibly the empty placeholder `none`), otherwise the
result of the combined backend fetch for that id. -/
def bulkEntryFor (ctx : BulkCtx) (store : Store) (backend : String → Option String)
    (i : String) : Option String :=
  match bulkLookup ctx store i with
  | some e => e.body
  | none => backend i

/-- Modelled from the spec (§4.3): the union (order-preserving, deduplicated)
of the valid ids that missed, carried by the single combined backend call. -/
def bulkMissing (ctx : BulkCtx) (store : Store) (tokens : List String) : List String :=
  ((validIdKeys ctx.cfg tokens).filter (fun i => (bulkLookup ctx store i).isNone)).dedup

/-- Modelled from the spec (§4.3): the store after the post-response writes of
a bulk request - each fetched id with an upstream result is stored, an id
with no result is stored as the empty placeholder only when
`cache_missing_ids` is set. -/
def bulkStoreAfter (ctx : BulkCtx) (store : Store) (backend : String → Option String)
    (tokens : List String) : Store :=
  (bulkMissing ctx store tokens).foldl (fun st i =>
    match backend i with
    | some v => storePut st (bulkKey ctx i) ⟨200, some v, ctx.now, ctx.cfg.ttl⟩
    | none =>
      if ctx.cfg.cacheMissingIds then
        storePut st (bulkKey ctx i) ⟨200, none, ctx.now, ctx.cfg.ttl⟩
      else st) store

/-- Outcome of one bulk request: the aggregate cache-status signal, the single
combined backend fetch (if any), the recomposed response sequence, and the
store after the post-response writes. -/
structure BulkResult where
  status : String
  fetched : Option (List String)
  response : List String
  store : Store

/-- Modelled from the spec (§4.3): the whole bulk decomposition/recomposition
round: the aggregate is a hit only when no valid id misses, all misses are
fetched in one combined call, and the response is recomposed in original
order with duplicates, valid ids with no entry contributing nothing. -/
def processBulk (ctx : BulkCtx) (store : Store) (tokens : List String)
    (backend : String → Option String) : BulkResult :=
  { status := if (bulkMissing ctx store tokens).isEmpty then "hit" else "miss"
  , fetched := if (bulkMissing ctx store tokens).isEmpty then none
               else some (bulkMissing ctx store tokens)
  , response := (validIdKeys ctx.cfg tokens).filterMap (bulkEntryFor ctx store backend)
  , store := bulkStoreAfter ctx store backend tokens }

/-- Modelled from the spec (§4.4): what the backend does on one round trip. -/
inductive BackendOutcome where
  | responds (status : Nat) (contentType : String) (body : String)
  | closes
deriving DecidableEq

/-- Modelled from the spec (§4.4): a backend round trip - its total duration
and its outcome. -/
structure BackendBehavior where
  elapsedMs : Nat
  outcome : BackendOutcome
deriving DecidableEq

/-- Modelled from the spec (§4.4): `fetch(upstream_request, timeout)`. -/
inductive FetchResult where
  | ok (status : Nat) (contentType : String) (body : String)
  | timedOut
  | connectionClosed
deriving DecidableEq

/-- Modelled from the spec (§4.4): a fixed deadline governs the whole round
trip; exceeding it times the fetch out, otherwise the backend closing
mid-response surfaces as a closed connection. -/
def fetch (timeoutMs : Nat) (b : BackendBehavior) : FetchResult :=
  if timeoutMs < b.elapsedMs then .timedOut
  else
    match b.outcome with
    | .responds st ct body => .ok st ct body
    | .closes => .connectionClosed

/-- Modelled from the spec (§4.4): the client-visible (status, content-type,
body) of a fetch - a timeout synthesizes
`504 / Error requesting <original-path>: timeout`, a closed connection
`502 / Error requesting <original-path>: closed`. -/
def fetchResponse (origPath : String) : FetchResult → Nat × String × String
  | .ok st ct body => (st, ct, body)
  | .timedOut => (504, "text/plain", "Error requesting " ++ origPath ++ ": timeout")
  | .connectionClosed => (502, "text/plain", "Error requesting " ++ origPath ++ ": closed")

/-- Modelled from the spec (§4.2): a JSON-compatible content-type. -/
def isJsonContentType (ct : String) : Bool :=
  List.isPrefixOf "application/json".data ct.data

/-- Modelled from the spec (§4.4): post-response write-through - only a 200
response with a JSON-compatible content-type is stored; synthesized and
non-2xx responses are never cached. -/
def writeThrough (store : Store) (k : StoreKey) (now ttl : Nat) (st : Nat)
    (ct body : String) : Store :=
  if st == 200 && isJsonContentType ct then storePut store k ⟨st, some body, now, ttl⟩
  else store

/-- Modelled from the spec (§4.2, §6): the cache-status signal of an uncached
fetch - non-2xx and non-JSON responses carry their own reasons. -/
def missStatus (st : Nat) (ct : String) : String :=
  if st ≠ 200 then "non-cacheable-response: status code is " ++ toString st
  else if isJsonContentType ct then "miss"
  else "unable to process response; content-type is " ++ ct

/-- Outcome of one non-bulk GET through the proxy: the `Spectre-Cache-Status`
signal, the client-visible status and body, and the store afterwards. -/
structure GetOutcome where
  cacheStatus : String
  respStatus : Nat
  respBody : String
  store : Store

/-- Modelled from the spec (§4.2-§4.4, §6): one cacheable GET - a no-cache
directive forces a direct fetch (still writing through to the store), a fresh
entry is served as a hit, otherwise the backend is fetched and a cache-eligible
response written through after the response. -/
def processGet (cfg : CacheEndpointConfig) (ns cacheName : String) (store : Store)
    (now : Nat) (r : Request) (timeoutMs : Nat) (bb : BackendBehavior) : GetOutcome :=
  match derive cfg ns cacheName r with
  | .rejected reason =>
    match fetchResponse r.path (fetch timeoutMs bb) with
    | (st, ct, body) =>
      { cacheStatus := reason, respStatus := st, respBody := body
      , store := writeThrough store (deriveKey cfg ns cacheName r) now cfg.ttl st ct body }
  | .key k =>
    match storeLookup store k now with
    | some e =>
      { cacheStatus := "hit", respStatus := e.statusCode, respBody := e.body.getD ""
      , store := store }
    | none =>
      match fetchResponse r.path (fetch timeoutMs bb) with
      | (st, ct, body) =>
        { cacheStatus := missStatus st ct, respStatus := st, respBody := body
        , store := writeThrough store k now cfg.ttl st ct body }

/-- Result of routing one inbound request. -/
inductive RouteResult where
  | notFound (status : Nat) (body : String)
  | proxied (status : Nat)
  | unknownDestination
deriving DecidableEq

/-- Modelled from the spec: the routing layer reads the externally-supplied
routing-destination header `X-Smartstack-Destination`; without it the request
is not proxied and a 404 `Not found: <METHOD> <path>` is produced (behaviour
fixed by the integration test for the missing proxy code), with it a request
for a configured namespace is proxied and carries the backend status. -/
def route (namespaces : List String) (r : Request) (backendStatus : Nat) : RouteResult :=
  match headerValue r.headers "x-smartstack-destination" with
  | none => .notFound 404 ("Not found: " ++ r.method ++ " " ++ r.path)
  | some d => if namespaces.contains d then .proxied backendStatus else .unknownDestination

/-! Concrete fixtures mirroring the integration-test configuration: the
`backend.main` namespace with a query-cached endpoint, a POST-with-id
endpoint with ignored body fields, and the two bulk endpoints (valid id
range 1..999, with and without `cache_missing_ids`). -/

/-- Endpoint config of a plain cacheable GET endpoint varying on
`accept-encoding`. -/
def cfgQuery : CacheEndpointConfig :=
  { ttl := 10, varyHeaders := ["accept-encoding"], bulkSupport := false
  , cacheMissingIds := false, validRange := none, postIdField := none
  , ignoredBodyFields := [] }

/-- Endpoint config of the POST-with-id endpoint with ignored body fields. -/
def cfgPost : CacheEndpointConfig :=
  { ttl := 10, varyHeaders := [], bulkSupport := false
  , cacheMissingIds := false, validRange := none, postIdField := some "request_id"
  , ignoredBodyFields := ["ignore_field1", "ignore_field3"] }

/-- Endpoint config of a bulk endpoint that caches missing ids. -/
def cfgBulkT : CacheEndpointConfig :=
  { ttl := 10, varyHeaders := [], bulkSupport := true
  , cacheMissingIds := true, validRange := some (1, 999), postIdField := none
  , ignoredBodyFields := [] }

/-- Endpoint config of a bulk endpoint that does not cache missing ids. -/
def cfgBulkF : CacheEndpointConfig :=
  { ttl := 10, varyHeaders := [], bulkSupport := true
  , cacheMissingIds := false, validRange := some (1, 999), postIdField := none
  , ignoredBodyFields := [] }

/-- `GET /happy/?k1=v1&k2=v2`. -/
def reqA1 : Request :=
  { method := "GET", path := "/happy/", query := [("k1", "v1"), ("k2", "v2")]
  , headers := [], body := none }

/-- `GET /happy/?k2=v2&k1=v1` - the same request with the query parameters
in the other order. -/
def reqA2 : Request :=
  { method := "GET", path := "/happy/", query := [("k2", "v2"), ("k1", "v1")]
  , headers := [], body := none }

/-- POST with id 234 and one ignored field. -/
def reqP1 : Request :=
  { method := "POST", path := "/post_id_cache_variable_body/", query := []
  , headers := [], body := some [("request_id", "234"), ("ignore_field1", "abc")] }

/-- POST with id 234 and different values of ignored fields only. -/
def reqP2 : Request :=
  { method := "POST", path := "/post_id_cache_variable_body/", query := []
  , headers := []
  , body := some [("request_id", "234"), ("ignore_field1", "xyz"), ("ignore_field3", "21")] }

/-- GET with vary header `accept-encoding: testzip, deflate, custom`. -/
def reqV1 : Request :=
  { method := "GET", path := "/timestamp/cached", query := []
  , headers := [("accept-encoding", "testzip, deflate, custom")], body := none }

/-- GET with vary header `accept-encoding: none`. -/
def reqV2 : Request :=
  { method := "GET", path := "/timestamp/cached", query := []
  , headers := [("accept-encoding", "none")], body := none }

/-- POST with id 123. -/
def reqD1 : Request :=
  { method := "POST", path := "/post_id_cache/", query := []
  , headers := [], body := some [("request_id", "123")] }

/-- POST with id 234 - differing from `reqD1` in the non-ignored id field. -/
def reqD2 : Request :=
  { method := "POST", path := "/post_id_cache/", query := []
  , headers := [], body := some [("request_id", "234")] }

/-- The empty vary signature (no query, no vary headers, no body). -/
def sigEmpty : VarySig := ⟨[], [], none⟩

/-- Bulk context of the `cache_missing_ids = true` endpoint. -/
def ctxBulkT : BulkCtx :=
  ⟨cfgBulkT, "backend.main", "bulk_requester_default", sigEmpty, 0⟩

/-- Bulk context of the `cache_missing_ids = false` endpoint. -/
def ctxBulkF : BulkCtx :=
  ⟨cfgBulkF, "backend.main", "bulk_requester_does_not_cache_missing_ids", sigEmpty, 0⟩

/-- A backend with a result for every id. -/
def backendAll : String → Option String := fun i => some ("R" ++ i)

/-- A backend with no result for any id. -/
def backendNone : String → Option String := fun _ => none

/-- GET request carrying a `Pragma: no-cache` directive. -/
def reqNC : Request :=
  { method := "GET", path := "/timestamp/cached", query := []
  , headers := [("pragma", "no-cache")], body := none }

/-- The same GET request with no directive. -/
def reqPlain : Request :=
  { method := "GET", path := "/timestamp/cached", query := [], headers := [], body := none }

/-- A backend answering 200 JSON within the deadline. -/
def bbOk : BackendBehavior := ⟨500, .responds 200 "application/json" "fresh"⟩

/-- A backend closing the connection mid-response within the deadline. -/
def bbClosed : BackendBehavior := ⟨500, .closes⟩

/-- A backend answering only after 1500 ms. -/
def bbSlow : BackendBehavior := ⟨1500, .responds 200 "application/json" "late"⟩

/-- Request without the routing-destination header. -/
def reqNoDest : Request :=
  { method := "GET", path := "/not_cacheable", query := [], headers := [], body := none }

/-- Request with the routing-destination header for `backend.main`. -/
def reqDest : Request :=
  { method := "GET", path := "/not_cacheable", query := []
  , headers := [("x-smartstack-destination", "backend.main")], body := none }

/-! Helper lemmas. -/

theorem find?_filter_of_imp {α : Type} (l : List α) (p q : α → Bool)
    (h : ∀ x, p x = true → q x = true) : (l.filter q).find? p = l.find? p := by
  induction l with
  | nil => rfl
  | cons a l ih =>
    cases hp : p a with
    | true =>
      rw [List.filter_cons_of_pos (h a hp), List.find?_cons_of_pos _ hp,
        List.find?_cons_of_pos _ hp]
    | false =>
      have hp2 : ¬ p a = true := by simp [hp]
      cases hq : q a with
      | true =>
        rw [List.filter_cons_of_pos hq, List.find?_cons_of_neg _ hp2,
          List.find?_cons_of_neg _ hp2, ih]
      | false =>
        rw [List.filter_cons_of_neg (by simp [hq]), List.find?_cons_of_neg _ hp2, ih]

theorem find?_filter_of_excl {α : Type} (l : List α) (p q : α → Bool)
    (h : ∀ x, p x = true → q x = false) : (l.filter q).find? p = none := by
  induction l with
  | nil => rfl
  | cons a l ih =>
    cases hq : q a with
    | true =>
      have hp : ¬ p a = true := fun hpa => by simp [h a hpa] at hq
      rw [List.filter_cons_of_pos hq, List.find?_cons_of_neg _ hp, ih]
    | false =>
      rw [List.filter_cons_of_neg (by simp [hq]), ih]

theorem eq_of_map_eq_of_mem {α β : Type} (f g : α → β) (l : List α) (a : α)
    (ha : a ∈ l) (h : l.map f = l.map g) : f a = g a := by
  induction l with
  | nil => cases ha
  | cons b l ih =>
    rw [List.map_cons, List.map_cons] at h
    injection h with h1 h2
    rcases List.mem_cons.mp ha with h3 | h3
    · rw [h3]; exact h1
    · exact ih h3 h2

theorem queryKeys_perm {q1 q2 : List (String × String)} (h : List.Perm q1 q2) :
    queryKeys q1 = queryKeys q2 := by
  have hd : List.Perm ((q1.map Prod.fst).dedup) ((q2.map Prod.fst).dedup) :=
    (h.map Prod.fst).dedup
  exact List.eq_of_perm_of_sorted
    (((List.perm_insertionSort keyLe _).trans hd).trans (List.perm_insertionSort keyLe _).symm)
    (List.sorted_insertionSort keyLe _) (List.sorted_insertionSort keyLe _)

theorem mem_queryKeys {q : List (String × String)} {k : String}
    (h : k ∈ queryKeys q) : k ∈ q.map Prod.fst := by
  simpa [queryKeys] using h

theorem canonQuery_congr {q1 q2 : List (String × String)} (hp : List.Perm q1 q2)
    (hv : ∀ k ∈ q1.map Prod.fst, valuesFor q1 k = valuesFor q2 k) :
    canonQuery q1 = canonQuery q2 := by
  unfold canonQuery
  rw [← queryKeys_perm hp]
  exact List.map_congr_left (fun k hk => by rw [hv k (mem_queryKeys hk)])

theorem lookupField_stripIgnored (cfg : CacheEndpointConfig)
    (b : List (String × String)) (f : String)
    (hf : cfg.ignoredBodyFields.contains f = false) :
    lookupField (stripIgnored cfg b) f = lookupField b f := by
  unfold lookupField stripIgnored
  rw [find?_filter_of_imp]
  intro x hx
  have hx2 : x.1 = f := by simpa using hx
  rw [hx2, hf]
  rfl

/-- C1: cache-key derivation is invariant under query-parameter reordering and
under changes confined to ignored POST body fields (same CacheKey, so one
request populates the cache and the other hits), while any difference in a
configured vary-header value or in a non-ignored body field yields a
different CacheKey (a miss). -/
theorem casper_c1 :
    (∀ (cfg : CacheEndpointConfig) (ns cacheName : String) (r1 r2 : Request),
      r1.method = r2.method → r1.path = r2.path → r1.headers = r2.headers →
      r1.body = r2.body → List.Perm r1.query r2.query →
      (∀ k ∈ r1.query.map Prod.fst, valuesFor r1.query k = valuesFor r2.query k) →
      derive cfg ns cacheName r1 = derive cfg ns cacheName r2)
  ∧ (∀ (cfg : CacheEndpointConfig) (ns cacheName : String) (r1 r2 : Request)
      (b1 b2 : List (String × String)) (f : String),
      cfg.postIdField = some f → cfg.ignoredBodyFields.contains f = false →
      r1.method = "POST" → r2.method = "POST" → r1.path = r2.path →
      r1.headers = r2.headers → r1.query = r2.query →
      r1.body = some b1 → r2.body = some b2 →
      stripIgnored cfg b1 = stripIgnored cfg b2 →
      derive cfg ns cacheName r1 = derive cfg ns cacheName r2)
  ∧ (∀ (cfg : CacheEndpointConfig) (ns cacheName : String) (r1 r2 : Request) (h : String),
      h ∈ cfg.varyHeaders → headerValue r1.headers h ≠ headerValue r2.headers h →
      deriveKey cfg ns cacheName r1 ≠ deriveKey cfg ns cacheName r2)
  ∧ (∀ (cfg : CacheEndpointConfig) (ns cacheName : String) (r1 r2 : Request)
      (b1 b2 : List (String × String)) (f : String),
      r1.method = "POST" → r2.method = "POST" →
      r1.body = some b1 → r2.body = some b2 →
      cfg.ignoredBodyFields.contains f = false →
      lookupField b1 f ≠ lookupField b2 f →
      deriveKey cfg ns cacheName r1 ≠ deriveKey cfg ns cacheName r2) := by
  refine ⟨?_, ?_, ?_, ?_⟩
  · intro cfg ns cacheName r1 r2 hm hp hh hb hperm hval
    have hid : extractEntityId cfg r1 = extractEntityId cfg r2 := by
      unfold extractEntityId
      rw [hb]
    have hsig : varySig cfg r1 = varySig cfg r2 := by
      unfold varySig
      rw [hh, hb, hm, canonQuery_congr hperm hval]
    unfold derive deriveKey
    rw [hh, hid, hsig]
  · intro cfg ns cacheName r1 r2 b1 b2 f hpf hfi hm1 hm2 hp hh hq hb1 hb2 hstrip
    have hlk : lookupField b1 f = lookupField b2 f := by
      rw [← lookupField_stripIgnored cfg b1 f hfi, ← lookupField_stripIgnored cfg b2 f hfi,
        hstrip]
    have hid : extractEntityId cfg r1 = extractEntityId cfg r2 := by
      unfold extractEntityId
      rw [hpf, hb1, hb2]
      show lookupField b1 f = lookupField b2 f
      exact hlk
    have hsig : varySig cfg r1 = varySig cfg r2 := by
      unfold varySig
      rw [hh, hq, hm1, hm2, hb1, hb2]
      simp [hstrip]
    unfold derive deriveKey
    rw [hh, hid, hsig]
  · intro cfg ns cacheName r1 r2 h hmem hne heq
    apply hne
    have hsig : varySig cfg r1 = varySig cfg r2 := congrArg StoreKey.sig heq
    have hvv : cfg.varyHeaders.map (fun v => headerValue r1.headers v) =
        cfg.varyHeaders.map (fun v => headerValue r2.headers v) :=
      congrArg VarySig.varyValues hsig
    exact eq_of_map_eq_of_mem (fun v => headerValue r1.headers v)
      (fun v => headerValue r2.headers v) cfg.varyHeaders h hmem hvv
  · intro cfg ns cacheName r1 r2 b1 b2 f hm1 hm2 hb1 hb2 hfi hne heq
    apply hne
    have hsig : varySig cfg r1 = varySig cfg r2 := congrArg StoreKey.sig heq
    have hbf := congrArg VarySig.bodyFingerprint hsig
    simp only [varySig, hm1, hm2, hb1, hb2] at hbf
    simp at hbf
    rw [← lookupField_stripIgnored cfg b1 f hfi, ← lookupField_stripIgnored cfg b2 f hfi, hbf]

/-- Witness for C1 at the test suite's concrete requests: reordered query
parameters and ignored-field-only differences give equal derivations, a
changed vary header or id field gives different CacheKeys. -/
theorem casper_c1_witness :
    (List.Perm reqA1.query reqA2.query ∧
      derive cfgQuery "backend.main" "happy" reqA1 = derive cfgQuery "backend.main" "happy" reqA2)
  ∧ (stripIgnored cfgPost [("request_id", "234"), ("ignore_field1", "abc")] =
        stripIgnored cfgPost
          [("request_id", "234"), ("ignore_field1", "xyz"), ("ignore_field3", "21")] ∧
      derive cfgPost "backend.main" "post_with_id_varying_body" reqP1 =
        derive cfgPost "backend.main" "post_with_id_varying_body" reqP2)
  ∧ (headerValue reqV1.headers "accept-encoding" ≠ headerValue reqV2.headers "accept-encoding" ∧
      deriveKey cfgQuery "backend.main" "timestamp" reqV1 ≠
        deriveKey cfgQuery "backend.main" "timestamp" reqV2)
  ∧ (lookupField [("request_id", "123")] "request_id" ≠
        lookupField [("request_id", "234")] "request_id" ∧
      deriveKey cfgPost "backend.main" "post_with_id" reqD1 ≠
        deriveKey cfgPost "backend.main" "post_with_id" reqD2) :=
  ⟨⟨by decide,
    casper_c1.1 cfgQuery "backend.main" "happy" reqA1 reqA2 rfl rfl rfl rfl
      (by decide) (by decide)⟩,
   ⟨by decide,
    casper_c1.2.1 cfgPost "backend.main" "post_with_id_varying_body" reqP1 reqP2
      [("request_id", "234"), ("ignore_field1", "abc")]
      [("request_id", "234"), ("ignore_field1", "xyz"), ("ignore_field3", "21")]
      "request_id" rfl (by decide) rfl rfl rfl rfl rfl rfl rfl (by decide)⟩,
   ⟨by decide,
    casper_c1.2.2.1 cfgQuery "backend.main" "timestamp" reqV1 reqV2 "accept-encoding"
      (by decide) (by decide)⟩,
   ⟨by decide,
    casper_c1.2.2.2 cfgPost "backend.main" "post_with_id" reqD1 reqD2
      [("request_id", "123")] [("request_id", "234")] "request_id"
      rfl rfl rfl rfl (by decide) (by decide)⟩⟩

theorem storeFind_storePut_self (store : Store) (k : StoreKey) (e : CacheEntry) :
    storeFind (storePut store k e) k = some e := by
  unfold storeFind storePut
  rw [List.find?_cons_of_pos _ (by simp)]
  rfl

theorem storeFind_storePut_other (store : Store) (k k2 : StoreKey) (e : CacheEntry)
    (h : k2 ≠ k) : storeFind (storePut store k e) k2 = storeFind store k2 := by
  unfold storeFind storePut
  rw [List.find?_cons_of_neg _ (by simp; exact fun h2 => h h2.symm)]
  rw [find?_filter_of_imp]
  intro x hx
  have hx2 : x.1 = k2 := by simpa using hx
  simp [hx2, h]

/-- C9: an entry stored at `stored_at` with time-to-live `ttl` is a hit (the
stored entry itself) at every read strictly before `stored_at + ttl`, a miss
at or after that instant, and expiry is lazy: the entry itself stays present
in the store, only the read reports a miss. -/
theorem casper_c9 (store : Store) (k : StoreKey) (e : CacheEntry) (t : Nat) :
    (t < e.storedAt + e.ttl → storeLookup (storePut store k e) k t = some e)
  ∧ (e.storedAt + e.ttl ≤ t → storeLookup (storePut store k e) k t = none)
  ∧ storeFind (storePut store k e) k = some e := by
  refine ⟨?_, ?_, storeFind_storePut_self store k e⟩
  · intro h
    unfold storeLookup
    rw [storeFind_storePut_self]
    show (if t < e.storedAt + e.ttl then some e else none) = some e
    rw [if_pos h]
  · intro h
    unfold storeLookup
    rw [storeFind_storePut_self]
    show (if t < e.storedAt + e.ttl then some e else none) = none
    rw [if_neg (Nat.not_lt.mpr h)]

/-- Witness for C9: an entry stored at time 5 with `ttl = 3` reads back at
time 7 and is gone (as a read) at time 8, while still physically present. -/
theorem casper_c9_witness :
    (7 < 5 + 3 ∧
      storeLookup (storePut [] ⟨"backend.main", "timestamp", none, ⟨[], [], none⟩⟩
        ⟨200, some "v", 5, 3⟩) ⟨"backend.main", "timestamp", none, ⟨[], [], none⟩⟩ 7 =
        some ⟨200, some "v", 5, 3⟩)
  ∧ (5 + 3 ≤ 8 ∧
      storeLookup (storePut [] ⟨"backend.main", "timestamp", none, ⟨[], [], none⟩⟩
        ⟨200, some "v", 5, 3⟩) ⟨"backend.main", "timestamp", none, ⟨[], [], none⟩⟩ 8 =
        none) :=
  ⟨⟨by decide,
    (casper_c9 [] ⟨"backend.main", "timestamp", none, ⟨[], [], none⟩⟩
      ⟨200, some "v", 5, 3⟩ 7).1 (by decide)⟩,
   ⟨by decide,
    (casper_c9 [] ⟨"backend.main", "timestamp", none, ⟨[], [], none⟩⟩
      ⟨200, some "v", 5, 3⟩ 8).2.1 (by decide)⟩⟩

/-- C8: purging by id deletes exactly the entries of that id (across all vary
signatures) under the given namespace and cache name; every entry under a
different id, cache name or namespace is untouched, and a lookup of it at any
time is unchanged (still a hit if it was one). -/
theorem casper_c8 (store : Store) (ns cacheName x : String) (k : StoreKey) (now : Nat) :
    ((k.ns ≠ ns ∨ k.cacheName ≠ cacheName ∨ k.entityId ≠ some x) →
      storeFind (purgeStore store ns cacheName (some x)) k = storeFind store k
      ∧ storeLookup (purgeStore store ns cacheName (some x)) k now = storeLookup store k now)
  ∧ ∀ sig : VarySig,
      storeFind (purgeStore store ns cacheName (some x)) ⟨ns, cacheName, some x, sig⟩ = none := by
  constructor
  · intro hk
    have hfind : storeFind (purgeStore store ns cacheName (some x)) k = storeFind store k := by
      unfold storeFind purgeStore
      rw [find?_filter_of_imp]
      intro p hp
      have hp2 : p.1 = k := by simpa using hp
      rcases hk with h | h | h <;> simp [hp2, h]
    exact ⟨hfind, by unfold storeLookup; rw [hfind]⟩
  · intro sig
    unfold storeFind purgeStore
    rw [find?_filter_of_excl]
    · rfl
    · intro p hp
      have hp2 : p.1 = (⟨ns, cacheName, some x, sig⟩ : StoreKey) := by simpa using hp
      simp [hp2]

/-- Witness for C8: purging id `1` under `bulk` removes its entry but leaves
the sibling id `2` and an entry under another cache name as hits. -/
theorem casper_c8_witness :
    ((⟨"backend.main", "bulk", some "2", ⟨[], [], none⟩⟩ : StoreKey).entityId ≠ some "1" ∧
      storeLookup
        (purgeStore
          [(⟨"backend.main", "bulk", some "1", ⟨[], [], none⟩⟩, ⟨200, some "a", 0, 9⟩),
           (⟨"backend.main", "bulk", some "2", ⟨[], [], none⟩⟩, ⟨200, some "b", 0, 9⟩),
           (⟨"backend.main", "other", some "1", ⟨[], [], none⟩⟩, ⟨200, some "c", 0, 9⟩)]
          "backend.main" "bulk" (some "1"))
        ⟨"backend.main", "bulk", some "2", ⟨[], [], none⟩⟩ 3 = some ⟨200, some "b", 0, 9⟩)
  ∧ storeFind
      (purgeStore
        [(⟨"backend.main", "bulk", some "1", ⟨[], [], none⟩⟩, ⟨200, some "a", 0, 9⟩),
         (⟨"backend.main", "bulk", some "2", ⟨[], [], none⟩⟩, ⟨200, some "b", 0, 9⟩),
         (⟨"backend.main", "other", some "1", ⟨[], [], none⟩⟩, ⟨200, some "c", 0, 9⟩)]
        "backend.main" "bulk" (some "1"))
      ⟨"backend.main", "bulk", some "1", ⟨[], [], none⟩⟩ = none :=
  ⟨⟨by decide, by
    have h :=
      ((casper_c8
        [(⟨"backend.main", "bulk", some "1", ⟨[], [], none⟩⟩, ⟨200, some "a", 0, 9⟩),
         (⟨"backend.main", "bulk", some "2", ⟨[], [], none⟩⟩, ⟨200, some "b", 0, 9⟩),
         (⟨"backend.main", "other", some "1", ⟨[], [], none⟩⟩, ⟨200, some "c", 0, 9⟩)]
        "backend.main" "bulk" "1"
        ⟨"backend.main", "bulk", some "2", ⟨[], [], none⟩⟩ 3).1
        (Or.inr (Or.inr (by decide)))).2
    rw [h]
    decide⟩,
   (casper_c8
      [(⟨"backend.main", "bulk", some "1", ⟨[], [], none⟩⟩, ⟨200, some "a", 0, 9⟩),
       (⟨"backend.main", "bulk", some "2", ⟨[], [], none⟩⟩, ⟨200, some "b", 0, 9⟩),
       (⟨"backend.main", "other", some "1", ⟨[], [], none⟩⟩, ⟨200, some "c", 0, 9⟩)]
      "backend.main" "bulk" "1"
      ⟨"backend.main", "bulk", some "2", ⟨[], [], none⟩⟩ 3).2 ⟨[], [], none⟩⟩

theorem filterMap_eq_map_of_isSome {α β : Type} (f : α → Option β) (d : β) (l : List α)
    (h : ∀ a ∈ l, (f a).isSome = true) :
    l.filterMap f = l.map (fun a => (f a).getD d) := by
  induction l with
  | nil => rfl
  | cons a l ih =>
    have ha := h a (List.mem_cons_self a l)
    cases hfa : f a with
    | none => rw [hfa] at ha; simp at ha
    | some b =>
      rw [List.filterMap_cons_some hfa, List.map_cons,
        ih (fun x hx => h x (List.mem_cons_of_mem a hx)), hfa]
      rfl

theorem bulkMissing_isEmpty_iff (ctx : BulkCtx) (store : Store) (tokens : List String) :
    (bulkMissing ctx store tokens).isEmpty = true ↔
      ∀ i ∈ validIdKeys ctx.cfg tokens, (bulkLookup ctx store i).isSome = true := by
  unfold bulkMissing
  rw [List.isEmpty_iff, List.dedup_eq_nil, List.filter_eq_nil_iff]
  constructor
  · intro h i hi
    have h2 := h i hi
    cases hc : bulkLookup ctx store i with
    | none => rw [hc] at h2; simp at h2
    | some e => rfl
  · intro h i hi
    have h2 := h i hi
    cases hc : bulkLookup ctx store i with
    | none => rw [hc] at h2; simp at h2
    | some e => simp

theorem bulkMissing_single_miss (ctx : BulkCtx) (store : Store) (tokens : List String)
    (v : String) (hids : validIdKeys ctx.cfg tokens = [v])
    (h : (bulkLookup ctx store v).isNone = true) :
    bulkMissing ctx store tokens = [v] := by
  unfold bulkMissing
  rw [hids]
  simp [List.filter_cons, h]

theorem bulkMissing_single_hit (ctx : BulkCtx) (store : Store) (tokens : List String)
    (v : String) (hids : validIdKeys ctx.cfg tokens = [v])
    (h : (bulkLookup ctx store v).isNone = false) :
    bulkMissing ctx store tokens = [] := by
  unfold bulkMissing
  rw [hids]
  simp [List.filter_cons, h]

theorem validIdKeys_filter_invalid (cfg : CacheEndpointConfig) (tokens : List String) :
    validIdKeys cfg (tokens.filter (fun t => !(validate cfg t == IdClass.invalid))) =
      validIdKeys cfg tokens := by
  induction tokens with
  | nil => rfl
  | cons t ts ih =>
    unfold validIdKeys at ih ⊢
    by_cases hv : validate cfg t = IdClass.invalid
    · rw [List.filter_cons_of_neg (by simp [hv])]
      rw [ih]
      simp [List.filterMap_cons, hv, idKeyOf]
    · rw [List.filter_cons_of_pos (by simp [hv])]
      cases hk : validate cfg t with
      | validInt n =>
        simp only [List.filterMap_cons, hk, idKeyOf] at ih ⊢
        rw [ih]
      | validStr s =>
        simp only [List.filterMap_cons, hk, idKeyOf] at ih ⊢
        rw [ih]
      | invalid => exact absurd hk hv

/-- C2: for a bulk request whose sequence of valid ids is `s`, each id having
an entry, the recomposed response has length `|s|`, its i-th element is the
entry of `s[i]` (duplicates kept in order), and in particular for
`s = [a, b, a]` it is `[R(a), R(b), R(a)]` with both occurrences of `R(a)`
identical. -/
theorem casper_c2 (ctx : BulkCtx) (store : Store) (tokens : List String)
    (backend : String → Option String)
    (h : ∀ i ∈ validIdKeys ctx.cfg tokens, (bulkEntryFor ctx store backend i).isSome = true) :
    (processBulk ctx store tokens backend).response =
      (validIdKeys ctx.cfg tokens).map (fun i => (bulkEntryFor ctx store backend i).getD "")
  ∧ (processBulk ctx store tokens backend).response.length =
      (validIdKeys ctx.cfg tokens).length
  ∧ ∀ a b : String, validIdKeys ctx.cfg tokens = [a, b, a] →
      (processBulk ctx store tokens backend).response =
        [(bulkEntryFor ctx store backend a).getD "",
         (bulkEntryFor ctx store backend b).getD "",
         (bulkEntryFor ctx store backend a).getD ""]
      ∧ (processBulk ctx store tokens backend).response[0]? =
          (processBulk ctx store tokens backend).response[2]? := by
  have hmap : (processBulk ctx store tokens backend).response =
      (validIdKeys ctx.cfg tokens).map (fun i => (bulkEntryFor ctx store backend i).getD "") := by
    show (validIdKeys ctx.cfg tokens).filterMap (bulkEntryFor ctx store backend) = _
    exact filterMap_eq_map_of_isSome _ "" _ h
  refine ⟨hmap, ?_, ?_⟩
  · rw [hmap, List.length_map]
  · intro a b hab
    constructor
    · rw [hmap, hab]
      rfl
    · rw [hmap, hab]
      simp

/-- Witness for C2 at id sequence `[1, 2, 1]` against an all-results
backend. -/
theorem casper_c2_witness :
    (∀ i ∈ validIdKeys ctxBulkF.cfg ["1", "2", "1"],
      (bulkEntryFor ctxBulkF [] backendAll i).isSome = true)
  ∧ (processBulk ctxBulkF [] ["1", "2", "1"] backendAll).response.length =
      (validIdKeys ctxBulkF.cfg ["1", "2", "1"]).length
  ∧ (processBulk ctxBulkF [] ["1", "2", "1"] backendAll).response =
      [(bulkEntryFor ctxBulkF [] backendAll "1").getD "",
       (bulkEntryFor ctxBulkF [] backendAll "2").getD "",
       (bulkEntryFor ctxBulkF [] backendAll "1").getD ""]
  ∧ (processBulk ctxBulkF [] ["1", "2", "1"] backendAll).response[0]? =
      (processBulk ctxBulkF [] ["1", "2", "1"] backendAll).response[2]? := by
  refine ⟨by decide, ?_, ?_, ?_⟩
  · exact (casper_c2 ctxBulkF [] ["1", "2", "1"] backendAll (by decide)).2.1
  · exact (((casper_c2 ctxBulkF [] ["1", "2", "1"] backendAll (by decide)).2.2 "1" "2"
      (by decide)).1)
  · exact (((casper_c2 ctxBulkF [] ["1", "2", "1"] backendAll (by decide)).2.2 "1" "2"
      (by decide)).2)

/-- C3: a bulk request is classified `hit` exactly when every valid id
resolves to a cache hit; one miss makes the whole aggregate a `miss` no
matter how many ids were already cached, and the single combined backend
fetch carries exactly the deduplicated union of the missing ids. -/
theorem casper_c3 (ctx : BulkCtx) (store : Store) (tokens : List String)
    (backend : String → Option String) :
    ((processBulk ctx store tokens backend).status = "hit" ↔
      ∀ i ∈ validIdKeys ctx.cfg tokens, (bulkLookup ctx store i).isSome = true)
  ∧ ((∃ i ∈ validIdKeys ctx.cfg tokens, (bulkLookup ctx store i).isSome = false) →
      (processBulk ctx store tokens backend).status = "miss"
      ∧ (processBulk ctx store tokens backend).fetched =
          some (((validIdKeys ctx.cfg tokens).filter
            (fun i => (bulkLookup ctx store i).isNone)).dedup)) := by
  constructor
  · show (if (bulkMissing ctx store tokens).isEmpty then "hit" else "miss") = "hit" ↔ _
    constructor
    · intro h
      by_cases he : (bulkMissing ctx store tokens).isEmpty
      · exact (bulkMissing_isEmpty_iff ctx store tokens).mp he
      · rw [if_neg he] at h
        exact absurd h (by decide)
    · intro h
      rw [if_pos ((bulkMissing_isEmpty_iff ctx store tokens).mpr h)]
  · rintro ⟨i, hi, hmiss⟩
    have hne : ¬ (bulkMissing ctx store tokens).isEmpty = true := by
      intro he
      have h2 := (bulkMissing_isEmpty_iff ctx store tokens).mp he i hi
      rw [hmiss] at h2
      exact absurd h2 (by decide)
    constructor
    · show (if (bulkMissing ctx store tokens).isEmpty then "hit" else "miss") = "miss"
      rw [if_neg hne]
    · show (if (bulkMissing ctx store tokens).isEmpty then none
          else some (bulkMissing ctx store tokens)) = _
      rw [if_neg hne]
      rfl

/-- Witness for C3: ids `[3, 4]` against an empty cache are a `miss` whose
single combined fetch carries `[3, 4]`. -/
theorem casper_c3_witness :
    ("3" ∈ validIdKeys ctxBulkF.cfg ["3", "4"]
      ∧ (bulkLookup ctxBulkF [] "3").isSome = false)
  ∧ (processBulk ctxBulkF [] ["3", "4"] backendAll).status = "miss"
  ∧ (processBulk ctxBulkF [] ["3", "4"] backendAll).fetched = some ["3", "4"] := by
  refine ⟨⟨by decide, by decide⟩, ?_, ?_⟩
  · exact ((casper_c3 ctxBulkF [] ["3", "4"] backendAll).2 ⟨"3", by decide, by decide⟩).1
  · have h := ((casper_c3 ctxBulkF [] ["3", "4"] backendAll).2 ⟨"3", by decide, by decide⟩).2
    rw [h]
    decide

/-- C4: a token parsing as an out-of-range integer is Invalid and contributes
nothing at all to a bulk request (dropping all invalid tokens leaves the
whole outcome - classification, fetch, response and store - unchanged),
while a token that fails integer parsing is always valid as an opaque string
id. -/
theorem casper_c4 :
    (∀ (cfg : CacheEndpointConfig) (t : String),
      parseIntToken t = none → validate cfg t = IdClass.validStr t)
  ∧ (∀ (cfg : CacheEndpointConfig) (t : String) (n lo hi : Int),
      cfg.validRange = some (lo, hi) → parseIntToken t = some n →
      ¬(lo ≤ n ∧ n ≤ hi) → validate cfg t = IdClass.invalid)
  ∧ (∀ (ctx : BulkCtx) (store : Store) (tokens : List String)
      (backend : String → Option String),
      processBulk ctx store
        (tokens.filter (fun t => !(validate ctx.cfg t == IdClass.invalid))) backend =
        processBulk ctx store tokens backend) := by
  refine ⟨?_, ?_, ?_⟩
  · intro cfg t h
    unfold validate
    rw [h]
  · intro cfg t n lo hi hr hp hn
    unfold validate
    rw [hp, hr]
    show (if lo ≤ n ∧ n ≤ hi then IdClass.validInt n else IdClass.invalid) = IdClass.invalid
    rw [if_neg hn]
  · intro ctx store tokens backend
    have hm : bulkMissing ctx store
        (tokens.filter (fun t => !(validate ctx.cfg t == IdClass.invalid))) =
        bulkMissing ctx store tokens := by
      unfold bulkMissing
      rw [validIdKeys_filter_invalid]
    unfold processBulk bulkStoreAfter
    rw [hm, validIdKeys_filter_invalid]

/-- Witness for C4: `abc` fails integer parsing and is a valid string id,
`5000` is out of range `1..999` and Invalid, and dropping it from
`[3, 5000, 4]` leaves the bulk outcome unchanged. -/
theorem casper_c4_witness :
    (parseIntToken "abc" = none ∧ validate cfgBulkF "abc" = IdClass.validStr "abc")
  ∧ (cfgBulkF.validRange = some (1, 999) ∧ parseIntToken "5000" = some 5000 ∧
      validate cfgBulkF "5000" = IdClass.invalid)
  ∧ processBulk ctxBulkF []
      (["3", "5000", "4"].filter (fun t => !(validate ctxBulkF.cfg t == IdClass.invalid)))
      backendAll =
      processBulk ctxBulkF [] ["3", "5000", "4"] backendAll :=
  ⟨⟨by decide, casper_c4.1 cfgBulkF "abc" (by decide)⟩,
   ⟨rfl, by decide,
     casper_c4.2.1 cfgBulkF "5000" 5000 1 999 rfl (by decide) (by decide)⟩,
   casper_c4.2.2 ctxBulkF [] ["3", "5000", "4"] backendAll⟩

/-- C5: when a bulk request's single valid id `v` is absent from the cache
and the backend fetch yields no result for it, then with
`cache_missing_ids = true` an empty-result placeholder is stored under `v`
so an identical request within the ttl is a `hit` returning the empty
result `[]`, while with `cache_missing_ids = false` nothing is stored and
every subsequent identical request is a `miss` that re-issues the fetch for
`v`. -/
theorem casper_c5 (ctx : BulkCtx) (store : Store) (tokens : List String)
    (backend : String → Option String) (v : String) (now2 : Nat)
    (hids : validIdKeys ctx.cfg tokens = [v])
    (habsent : storeFind store (bulkKey ctx v) = none)
    (hb : backend v = none) :
    (ctx.cfg.cacheMissingIds = true →
      (processBulk ctx store tokens backend).status = "miss"
      ∧ (processBulk ctx store tokens backend).response = []
      ∧ (processBulk ctx store tokens backend).store =
          storePut store (bulkKey ctx v) ⟨200, none, ctx.now, ctx.cfg.ttl⟩
      ∧ (now2 < ctx.now + ctx.cfg.ttl →
          (processBulk {ctx with now := now2} (processBulk ctx store tokens backend).store
            tokens backend).status = "hit"
          ∧ (processBulk {ctx with now := now2} (processBulk ctx store tokens backend).store
            tokens backend).response = []))
  ∧ (ctx.cfg.cacheMissingIds = false →
      (processBulk ctx store tokens backend).status = "miss"
      ∧ (processBulk ctx store tokens backend).store = store
      ∧ (processBulk {ctx with now := now2} (processBulk ctx store tokens backend).store
            tokens backend).status = "miss"
      ∧ (processBulk {ctx with now := now2} (processBulk ctx store tokens backend).store
            tokens backend).fetched = some [v]) := by
  have hlook : bulkLookup ctx store v = none := by
    unfold bulkLookup storeLookup
    rw [habsent]
  have hmiss : bulkMissing ctx store tokens = [v] :=
    bulkMissing_single_miss ctx store tokens v hids (by rw [hlook]; rfl)
  have hstatus : (processBulk ctx store tokens backend).status = "miss" := by
    show (if (bulkMissing ctx store tokens).isEmpty then "hit" else "miss") = "miss"
    rw [hmiss]
    rfl
  have hent : bulkEntryFor ctx store backend v = none := by
    unfold bulkEntryFor
    rw [hlook, hb]
  have hresp : (processBulk ctx store tokens backend).response = [] := by
    show (validIdKeys ctx.cfg tokens).filterMap (bulkEntryFor ctx store backend) = []
    rw [hids, List.filterMap_cons_none hent]
    rfl
  have hids2 : validIdKeys ({ctx with now := now2}).cfg tokens = [v] := hids
  have hkeq : bulkKey {ctx with now := now2} v = bulkKey ctx v := rfl
  constructor
  · intro hflag
    have hstore : (processBulk ctx store tokens backend).store =
        storePut store (bulkKey ctx v) ⟨200, none, ctx.now, ctx.cfg.ttl⟩ := by
      show bulkStoreAfter ctx store backend tokens = _
      unfold bulkStoreAfter
      rw [hmiss]
      simp [List.foldl, hb, hflag]
    refine ⟨hstatus, hresp, hstore, ?_⟩
    intro htime
    rw [hstore]
    have hlook2 : bulkLookup {ctx with now := now2}
        (storePut store (bulkKey ctx v) ⟨200, none, ctx.now, ctx.cfg.ttl⟩) v =
        some ⟨200, none, ctx.now, ctx.cfg.ttl⟩ := by
      unfold bulkLookup storeLookup
      rw [hkeq, storeFind_storePut_self]
      show (if now2 < ctx.now + ctx.cfg.ttl then
        some (⟨200, none, ctx.now, ctx.cfg.ttl⟩ : CacheEntry) else none) = _
      rw [if_pos htime]
    have hmiss2 : bulkMissing {ctx with now := now2}
        (storePut store (bulkKey ctx v) ⟨200, none, ctx.now, ctx.cfg.ttl⟩) tokens = [] :=
      bulkMissing_single_hit _ _ tokens v hids2 (by rw [hlook2]; rfl)
    constructor
    · show (if (bulkMissing _ _ tokens).isEmpty then "hit" else "miss") = "hit"
      rw [hmiss2]
      rfl
    · have hent2 : bulkEntryFor {ctx with now := now2}
          (storePut store (bulkKey ctx v) ⟨200, none, ctx.now, ctx.cfg.ttl⟩) backend v =
          none := by
        unfold bulkEntryFor
        rw [hlook2]
      show (validIdKeys ctx.cfg tokens).filterMap
          (bulkEntryFor {ctx with now := now2}
            (storePut store (bulkKey ctx v) ⟨200, none, ctx.now, ctx.cfg.ttl⟩) backend) = []
      rw [hids, List.filterMap_cons_none hent2]
      rfl
  · intro hflag
    have hstore : (processBulk ctx store tokens backend).store = store := by
      show bulkStoreAfter ctx store backend tokens = store
      unfold bulkStoreAfter
      rw [hmiss]
      simp [List.foldl, hb, hflag]
    refine ⟨hstatus, hstore, ?_, ?_⟩
    all_goals rw [hstore]
    all_goals
      have hlook3 : bulkLookup {ctx with now := now2} store v = none := by
        unfold bulkLookup storeLookup
        rw [hkeq, habsent]
      have hmiss3 : bulkMissing {ctx with now := now2} store tokens = [v] :=
        bulkMissing_single_miss _ _ tokens v hids2 (by rw [hlook3]; rfl)
    · show (if (bulkMissing _ _ tokens).isEmpty then "hit" else "miss") = "miss"
      rw [hmiss3]
      rfl
    · show (if (bulkMissing {ctx with now := now2} store tokens).isEmpty then none
        else some (bulkMissing {ctx with now := now2} store tokens)) = some [v]
      rw [hmiss3]
      rfl

/-- Witness for C5: valid id `7` with no upstream result - with the
placeholder-caching endpoint the retry is a `hit` returning `[]`, with the
other endpoint nothing is stored and the retry is a `miss` re-fetching
`7`. -/
theorem casper_c5_witness :
    (validIdKeys ctxBulkT.cfg ["7"] = ["7"]
      ∧ storeFind [] (bulkKey ctxBulkT "7") = none
      ∧ backendNone "7" = none
      ∧ ctxBulkT.cfg.cacheMissingIds = true
      ∧ (1 : Nat) < ctxBulkT.now + ctxBulkT.cfg.ttl
      ∧ (processBulk ctxBulkT [] ["7"] backendNone).status = "miss"
      ∧ (processBulk ctxBulkT [] ["7"] backendNone).response = []
      ∧ (processBulk {ctxBulkT with now := 1} (processBulk ctxBulkT [] ["7"] backendNone).store
          ["7"] backendNone).status = "hit"
      ∧ (processBulk {ctxBulkT with now := 1} (processBulk ctxBulkT [] ["7"] backendNone).store
          ["7"] backendNone).response = [])
  ∧ (ctxBulkF.cfg.cacheMissingIds = false
      ∧ (processBulk ctxBulkF [] ["7"] backendNone).store = []
      ∧ (processBulk {ctxBulkF with now := 1} (processBulk ctxBulkF [] ["7"] backendNone).store
          ["7"] backendNone).status = "miss"
      ∧ (processBulk {ctxBulkF with now := 1} (processBulk ctxBulkF [] ["7"] backendNone).store
          ["7"] backendNone).fetched = some ["7"]) := by
  have h1 := (casper_c5 ctxBulkT [] ["7"] backendNone "7" 1 (by decide) rfl rfl).1 rfl
  have h2 := (casper_c5 ctxBulkF [] ["7"] backendNone "7" 1 (by decide) rfl rfl).2 rfl
  exact ⟨⟨by decide, rfl, rfl, rfl, by decide, h1.1, h1.2.1, (h1.2.2.2 (by decide)).1,
    (h1.2.2.2 (by decide)).2⟩, ⟨rfl, h2.2.1, h2.2.2.1, h2.2.2.2⟩⟩

theorem processGet_uncached (cfg : CacheEndpointConfig) (ns cacheName : String)
    (store : Store) (now : Nat) (r : Request) (timeoutMs : Nat) (bb : BackendBehavior)
    (hmiss : storeLookup store (deriveKey cfg ns cacheName r) now = none)
    (st : Nat) (ct body : String)
    (hfr : fetchResponse r.path (fetch timeoutMs bb) = (st, ct, body)) :
    (processGet cfg ns cacheName store now r timeoutMs bb).respStatus = st
  ∧ (processGet cfg ns cacheName store now r timeoutMs bb).respBody = body
  ∧ (processGet cfg ns cacheName store now r timeoutMs bb).store =
      writeThrough store (deriveKey cfg ns cacheName r) now cfg.ttl st ct body := by
  by_cases hnc : hasNoCacheDirective r.headers = true
  · have hd : derive cfg ns cacheName r = .rejected "no-cache-header" := by
      unfold derive
      rw [hnc]
      rfl
    refine ⟨?_, ?_, ?_⟩ <;> simp only [processGet, hd, hfr]
  · have hd : derive cfg ns cacheName r = .key (deriveKey cfg ns cacheName r) := by
      unfold derive
      rw [if_neg hnc]
    refine ⟨?_, ?_, ?_⟩ <;> simp only [processGet, hd, hmiss, hfr]

/-- C7: a backend round trip that exceeds the per-request deadline produces a
synthesized 504 whose body is exactly `Error requesting <original-path>:
timeout`; the backend closing the connection mid-response produces a
synthesized 502 whose body is exactly `Error requesting <original-path>:
closed`; neither synthesized response is written to the cache. -/
theorem casper_c7 (cfg : CacheEndpointConfig) (ns cacheName : String) (store : Store)
    (now : Nat) (r : Request) (timeoutMs : Nat) (bb : BackendBehavior)
    (hmiss : storeLookup store (deriveKey cfg ns cacheName r) now = none) :
    (timeoutMs < bb.elapsedMs →
      (processGet cfg ns cacheName store now r timeoutMs bb).respStatus = 504
      ∧ (processGet cfg ns cacheName store now r timeoutMs bb).respBody =
          "Error requesting " ++ r.path ++ ": timeout"
      ∧ (processGet cfg ns cacheName store now r timeoutMs bb).store = store)
  ∧ (bb.elapsedMs ≤ timeoutMs → bb.outcome = BackendOutcome.closes →
      (processGet cfg ns cacheName store now r timeoutMs bb).respStatus = 502
      ∧ (processGet cfg ns cacheName store now r timeoutMs bb).respBody =
          "Error requesting " ++ r.path ++ ": closed"
      ∧ (processGet cfg ns cacheName store now r timeoutMs bb).store = store) := by
  constructor
  · intro htime
    have hfetch : fetch timeoutMs bb = .timedOut := by
      unfold fetch
      rw [if_pos htime]
    have hfr : fetchResponse r.path (fetch timeoutMs bb) =
        (504, "text/plain", "Error requesting " ++ r.path ++ ": timeout") := by
      rw [hfetch]
      rfl
    obtain ⟨h1, h2, h3⟩ := processGet_uncached cfg ns cacheName store now r timeoutMs bb
      hmiss 504 "text/plain" ("Error requesting " ++ r.path ++ ": timeout") hfr
    exact ⟨h1, h2, by rw [h3]; rfl⟩
  · intro hle hclose
    have hfetch : fetch timeoutMs bb = .connectionClosed := by
      unfold fetch
      rw [if_neg (Nat.not_lt.mpr hle), hclose]
    have hfr : fetchResponse r.path (fetch timeoutMs bb) =
        (502, "text/plain", "Error requesting " ++ r.path ++ ": closed") := by
      rw [hfetch]
      rfl
    obtain ⟨h1, h2, h3⟩ := processGet_uncached cfg ns cacheName store now r timeoutMs bb
      hmiss 502 "text/plain" ("Error requesting " ++ r.path ++ ": closed") hfr
    exact ⟨h1, h2, by rw [h3]; rfl⟩

/-- Witness for C7: a 1500 ms backend against a 1000 ms deadline yields the
exact 504 timeout response, a dropped connection the exact 502 response,
and the (empty) store is unchanged by both. -/
theorem casper_c7_witness :
    (storeLookup [] (deriveKey cfgQuery "backend.main" "timestamp" reqPlain) 0 = none
      ∧ 1000 < bbSlow.elapsedMs ∧ bbClosed.elapsedMs ≤ 1000
      ∧ bbClosed.outcome = BackendOutcome.closes)
  ∧ ((processGet cfgQuery "backend.main" "timestamp" [] 0 reqPlain 1000 bbSlow).respStatus = 504
      ∧ (processGet cfgQuery "backend.main" "timestamp" [] 0 reqPlain 1000 bbSlow).respBody =
          "Error requesting /timestamp/cached: timeout"
      ∧ (processGet cfgQuery "backend.main" "timestamp" [] 0 reqPlain 1000 bbSlow).store = [])
  ∧ ((processGet cfgQuery "backend.main" "timestamp" [] 0 reqPlain 1000 bbClosed).respStatus = 502
      ∧ (processGet cfgQuery "backend.main" "timestamp" [] 0 reqPlain 1000 bbClosed).respBody =
          "Error requesting /timestamp/cached: closed"
      ∧ (processGet cfgQuery "backend.main" "timestamp" [] 0 reqPlain 1000 bbClosed).store = []) := by
  have h1 := (casper_c7 cfgQuery "backend.main" "timestamp" [] 0 reqPlain 1000 bbSlow rfl).1
    (by decide)
  have h2 := (casper_c7 cfgQuery "backend.main" "timestamp" [] 0 reqPlain 1000 bbClosed rfl).2
    (by decide) rfl
  exact ⟨⟨rfl, by decide, by decide, rfl⟩, h1, h2⟩

/-- C6: a request carrying a no-cache directive never reports `hit` - on a
cacheable endpoint it reports `no-cache-header` even against a cache holding
a fresh entry for its key - yet the freshly fetched response is written
through to the store, so a later ordinary request for the same key within
the ttl hits the new value. -/
theorem casper_c6 (cfg : CacheEndpointConfig) (ns cacheName : String) (store : Store)
    (now : Nat) (r : Request) (timeoutMs : Nat) (bb : BackendBehavior) (r2 : Request)
    (now2 timeoutMs2 : Nat) (bb2 : BackendBehavior) (ct body : String)
    (hnc : hasNoCacheDirective r.headers = true)
    (hfetch : fetch timeoutMs bb = .ok 200 ct body)
    (hjson : isJsonContentType ct = true)
    (hnc2 : hasNoCacheDirective r2.headers = false)
    (hkey : deriveKey cfg ns cacheName r2 = deriveKey cfg ns cacheName r)
    (htime : now2 < now + cfg.ttl) :
    (processGet cfg ns cacheName store now r timeoutMs bb).cacheStatus = "no-cache-header"
  ∧ (processGet cfg ns cacheName store now r timeoutMs bb).cacheStatus ≠ "hit"
  ∧ (processGet cfg ns cacheName
      (processGet cfg ns cacheName store now r timeoutMs bb).store now2 r2
      timeoutMs2 bb2).cacheStatus = "hit"
  ∧ (processGet cfg ns cacheName
      (processGet cfg ns cacheName store now r timeoutMs bb).store now2 r2
      timeoutMs2 bb2).respBody = body := by
  have hd1 : derive cfg ns cacheName r = .rejected "no-cache-header" := by
    unfold derive
    rw [hnc]
    rfl
  have hout1 : processGet cfg ns cacheName store now r timeoutMs bb =
      { cacheStatus := "no-cache-header", respStatus := 200, respBody := body
      , store := storePut store (deriveKey cfg ns cacheName r)
          ⟨200, some body, now, cfg.ttl⟩ } := by
    simp only [processGet, hd1, hfetch, fetchResponse, writeThrough, hjson]
    rfl
  have hd2 : derive cfg ns cacheName r2 = .key (deriveKey cfg ns cacheName r) := by
    unfold derive
    rw [hnc2, hkey]
    rfl
  have hl : storeLookup (storePut store (deriveKey cfg ns cacheName r)
      ⟨200, some body, now, cfg.ttl⟩) (deriveKey cfg ns cacheName r) now2 =
      some ⟨200, some body, now, cfg.ttl⟩ := by
    unfold storeLookup
    rw [storeFind_storePut_self]
    show (if now2 < now + cfg.ttl then some (⟨200, some body, now, cfg.ttl⟩ : CacheEntry)
      else none) = _
    rw [if_pos htime]
  have hout2 : processGet cfg ns cacheName (storePut store (deriveKey cfg ns cacheName r)
      ⟨200, some body, now, cfg.ttl⟩) now2 r2 timeoutMs2 bb2 =
      { cacheStatus := "hit", respStatus := 200, respBody := body
      , store := storePut store (deriveKey cfg ns cacheName r)
          ⟨200, some body, now, cfg.ttl⟩ } := by
    simp only [processGet, hd2, hl]
    rfl
  have hst : (processGet cfg ns cacheName store now r timeoutMs bb).store =
      storePut store (deriveKey cfg ns cacheName r) ⟨200, some body, now, cfg.ttl⟩ := by
    rw [hout1]
  have hcs : (processGet cfg ns cacheName store now r timeoutMs bb).cacheStatus =
      "no-cache-header" := by
    rw [hout1]
  refine ⟨hcs, ?_, by rw [hst, hout2], by rw [hst, hout2]⟩
  intro hcontra
  rw [hcs] at hcontra
  exact absurd hcontra (by decide)

/-- Witness for C6: a `Pragma: no-cache` request reports `no-cache-header`,
and the ordinary request after it hits the freshly written value. -/
theorem casper_c6_witness :
    (hasNoCacheDirective reqNC.headers = true
      ∧ fetch 1000 bbOk = FetchResult.ok 200 "application/json" "fresh"
      ∧ isJsonContentType "application/json" = true
      ∧ hasNoCacheDirective reqPlain.headers = false
      ∧ deriveKey cfgQuery "backend.main" "timestamp" reqPlain =
          deriveKey cfgQuery "backend.main" "timestamp" reqNC
      ∧ (1 : Nat) < 0 + cfgQuery.ttl)
  ∧ (processGet cfgQuery "backend.main" "timestamp" [] 0 reqNC 1000 bbOk).cacheStatus =
      "no-cache-header"
  ∧ (processGet cfgQuery "backend.main" "timestamp"
      (processGet cfgQuery "backend.main" "timestamp" [] 0 reqNC 1000 bbOk).store 1 reqPlain
      1000 bbOk).cacheStatus = "hit"
  ∧ (processGet cfgQuery "backend.main" "timestamp"
      (processGet cfgQuery "backend.main" "timestamp" [] 0 reqNC 1000 bbOk).store 1 reqPlain
      1000 bbOk).respBody = "fresh" := by
  have h := casper_c6 cfgQuery "backend.main" "timestamp" [] 0 reqNC 1000 bbOk reqPlain 1
    1000 bbOk "application/json" "fresh" (by decide) (by decide) (by decide) (by decide)
    (by decide) (by decide)
  exact ⟨⟨by decide, by decide, by decide, by decide, by decide, by decide⟩,
    h.1, h.2.2.1, h.2.2.2⟩

/-- C10: a request without the routing-destination header
`X-Smartstack-Destination` is not proxied and yields a 404 whose body is
`Not found: <METHOD> <path>`; with the header present for a configured
namespace the request is proxied and carries the backend's status. -/
theorem casper_c10 (namespaces : List String) (r : Request) (backendStatus : Nat) :
    (headerValue r.headers "x-smartstack-destination" = none →
      route namespaces r backendStatus =
        RouteResult.notFound 404 ("Not found: " ++ r.method ++ " " ++ r.path))
  ∧ (∀ d : String, headerValue r.headers "x-smartstack-destination" = some d →
      namespaces.contains d = true →
      route namespaces r backendStatus = RouteResult.proxied backendStatus) := by
  constructor
  · intro h
    unfold route
    rw [h]
  · intro d hd hc
    unfold route
    rw [hd]
    show (if namespaces.contains d then RouteResult.proxied backendStatus
      else RouteResult.unknownDestination) = _
    rw [hc]
    rfl

/-- Witness for C10: `GET /not_cacheable` without the destination header is a
404 `Not found: GET /not_cacheable`, with it the backend's 200 is carried. -/
theorem casper_c10_witness :
    (headerValue reqNoDest.headers "x-smartstack-destination" = none
      ∧ route ["backend.main"] reqNoDest 200 =
          RouteResult.notFound 404 "Not found: GET /not_cacheable")
  ∧ (headerValue reqDest.headers "x-smartstack-destination" = some "backend.main"
      ∧ ["backend.main"].contains "backend.main" = true
      ∧ route ["backend.main"] reqDest 200 = RouteResult.proxied 200) := by
  constructor
  · exact ⟨by decide, (casper_c10 ["backend.main"] reqNoDest 200).1 (by decide)⟩
  · exact ⟨by decide, by decide,
      (casper_c10 ["backend.main"] reqDest 200).2 "backend.main" (by decide) (by decide)⟩
